import Mathlib

/-!
# Verification of the PII anonymizer service core

A shallow embedding of the core of the `pii-anonymizer-service` repository:
the consistent mapping store (`backend/src/services/mapping_store.py`), the
synthetic value generator (`backend/src/generators/synthetic.py`), the
anonymization orchestrator (`backend/src/services/anonymizer.py` together with
`backend/src/services/detector.py` and the `consistent_replace` operator), and
the request validation layer (`backend/src/api/schemas.py`).

External collaborators (Python's `random` module, the Faker library, Python's
`ipaddress` classification predicates, `hashlib.sha256`, and the Presidio
anonymizer engine) are modelled explicitly: randomness becomes an explicit
stream of natural-number draws, Faker becomes a deterministic function of its
seeded instance state (Faker's documented seeding guarantee), `ipaddress`
range predicates are transcribed from CPython's `ipaddress` module, SHA-256 is
implemented from FIPS 180-4 (which is what `hashlib.sha256` computes), and the
engine's span-replacement semantics follows its documented behaviour of
replacing each non-overlapping analyzer span by the operator's output.
-/

set_option maxRecDepth 100000
set_option maxHeartbeats 2000000

deriving instance DecidableEq for Except

namespace PIIAnon

/-! ## Model of Python's module-level `random` source

A random stream is a function from draw index to an arbitrary natural number;
consuming a draw shifts the stream.  Every value that the Python calls
`random.randint` / `random.choice` can produce is reachable by some stream, and
the stream is the only source of nondeterminism. -/

abbrev RNG := Nat → Nat

/-- Consume one draw from the stream. -/
def RNG.next (s : RNG) : Nat × RNG := (s 0, fun n => s (n + 1))

/-- Model of `random.randint(a, b)` (inclusive bounds): one draw, mapped into
`[a, b]`. -/
def randint (a b : Nat) (s : RNG) : Nat × RNG :=
  let (v, s') := s.next
  (a + v % (b + 1 - a), s')

/-- Model of `random.choice` on a list of length `n`: one draw, mapped to an
index `< n`. -/
def choiceIdx (n : Nat) (s : RNG) : Nat × RNG :=
  let (v, s') := s.next
  (v % n, s')

/-! ## IPv4 string parsing (model of `ipaddress.ip_address` for IPv4)

CPython's `ipaddress.IPv4Address` accepts exactly a dotted quad of decimal
octets `0..255` with no leading zeros; anything else raises `ValueError`. -/

/-- Split a character list at every occurrence of a separator character
(model of Python `str.split(sep)`). -/
def splitOnChar (sep : Char) : List Char → List (List Char)
  | [] => [[]]
  | c :: rest =>
    if c = sep then [] :: splitOnChar sep rest
    else
      match splitOnChar sep rest with
      | [] => [[c]]
      | p :: ps => (c :: p) :: ps

/-- Split a character list at `.` separators (used to parse dotted quads). -/
def splitDot : List Char → List (List Char) := splitOnChar '.'

/-- Decimal value of a digit-character list (most significant first). -/
def digitsVal : List Char → Nat
  | [] => 0
  | c :: rest => (c.toNat - 48) * 10 ^ rest.length + digitsVal rest

/-- Parse one octet: nonempty, all decimal digits, no leading zero
(except "0" itself), value `≤ 255`. -/
def parseOct (cs : List Char) : Option Nat :=
  if cs ≠ [] ∧ cs.all (fun c => '0' ≤ c ∧ c ≤ '9')
      ∧ (cs.length = 1 ∨ cs.headD '0' ≠ '0')
      ∧ digitsVal cs ≤ 255 then
    some (digitsVal cs)
  else
    none

/-- Parse a dotted-quad IPv4 address string. -/
def parseIPv4 (s : String) : Option (Nat × Nat × Nat × Nat) :=
  match splitDot s.toList with
  | [p1, p2, p3, p4] =>
    match parseOct p1, parseOct p2, parseOct p3, parseOct p4 with
    | some a, some b, some c, some d => some (a, b, c, d)
    | _, _, _, _ => none
  | _ => none

/-- Render a dotted quad, as Python's f-strings in the generators do. -/
def mkQuad (a b c d : Nat) : String :=
  Nat.repr a ++ "." ++ Nat.repr b ++ "." ++ Nat.repr c ++ "." ++ Nat.repr d

/-! ## `is_private_ip` and friends (from `generators/synthetic.py`) -/

/-- Membership tests used by `is_private_ip`: RFC 1918 ranges
(`10/8`, `172.16/12`, `192.168/16`) plus loopback `127/8` and
link-local `169.254/16`, on a parsed quad. -/
def quadIsRFC1918OrInternal (a b : Nat) : Bool :=
  a = 10 || (a = 172 && 16 ≤ b && b ≤ 31) || (a = 192 && b = 168)
    || a = 127 || (a = 169 && b = 254)

/-- `is_private_ip(ip_str)` from `generators/synthetic.py`: parse the string as
an IPv4 address (`ValueError` yields `False`), then test the RFC 1918 ranges
plus loopback and link-local. -/
def is_private_ip (s : String) : Bool :=
  match parseIPv4 s with
  | none => false
  | some (a, b, _, _) => quadIsRFC1918OrInternal a b

/-! ## CPython `ipaddress` classification predicates

Transcribed from CPython's `ipaddress` module `_private_networks` /
`is_loopback` / `is_link_local` / `is_multicast` / `is_reserved` definitions
for IPv4, applied to a parsed quad.  These are what
`generate_public_ipv4` / `generate_public_network` consult. -/

def pyIsPrivateQuad (a b c d : Nat) : Bool :=
  a = 0 || a = 10 || a = 127 || (a = 169 && b = 254)
    || (a = 172 && 16 ≤ b && b ≤ 31)
    || (a = 192 && b = 0 && c = 0 && d ≤ 7)
    || (a = 192 && b = 0 && c = 0 && (d = 170 || d = 171))
    || (a = 192 && b = 0 && c = 2)
    || (a = 192 && b = 168)
    || (a = 198 && (b = 18 || b = 19))
    || (a = 198 && b = 51 && c = 100)
    || (a = 203 && b = 0 && c = 113)
    || 240 ≤ a

def pyIsLoopbackQuad (a : Nat) : Bool := a = 127

def pyIsLinkLocalQuad (a b : Nat) : Bool := a = 169 && b = 254

def pyIsMulticastQuad (a : Nat) : Bool := 224 ≤ a && a ≤ 239

def pyIsReservedQuad (a : Nat) : Bool := 240 ≤ a

/-- The acceptance test of the `while True` loop in `generate_public_ipv4`:
not private, loopback, link-local, multicast or reserved. -/
def pyPublicHostOk (a b c d : Nat) : Bool :=
  !(pyIsPrivateQuad a b c d || pyIsLoopbackQuad a || pyIsLinkLocalQuad a b
      || pyIsMulticastQuad a || pyIsReservedQuad a)

/-! ## The module-level IP generators (from `generators/synthetic.py`) -/

/-- `generate_private_ipv4()`: `random.choice` over the three private range
descriptors, then per-branch `random.randint` draws, exactly as the source's
f-strings consume them. -/
def generate_private_ipv4 (s : RNG) : String × RNG :=
  let (idx, s0) := choiceIdx 3 s
  if idx = 0 then
    let (b, s1) := randint 0 255 s0
    let (c, s2) := randint 0 255 s1
    let (d, s3) := randint 1 254 s2
    (mkQuad 10 b c d, s3)
  else if idx = 1 then
    let (b, s1) := randint 16 31 s0
    let (c, s2) := randint 0 255 s1
    let (d, s3) := randint 1 254 s2
    (mkQuad 172 b c d, s3)
  else
    let (c, s1) := randint 0 255 s0
    let (d, s2) := randint 1 254 s1
    (mkQuad 192 168 c d, s2)

/-- The four octet draws of one `generate_public_ipv4` attempt
(`first ∈ [1,223]`, middle two `∈ [0,255]`, last `∈ [1,254]`). -/
def gp4Draw (s : RNG) : (Nat × Nat × Nat × Nat) × RNG :=
  let (a, s1) := randint 1 223 s
  let (b, s2) := randint 0 255 s1
  let (c, s3) := randint 0 255 s2
  let (d, s4) := randint 1 254 s3
  ((a, b, c, d), s4)

/-- `generate_public_ipv4()`: the source loops `while True`, drawing a
candidate `[1,223].x.x.[1,254]` and returning it only when it passes
`pyPublicHostOk`.  The loop has no bound in the source; the embedding makes
the attempt count explicit as fuel and returns `none` when the fuel is spent
without an acceptable candidate. -/
def generate_public_ipv4 : Nat → RNG → Option (String × RNG)
  | 0, _ => none
  | n + 1, s =>
    match gp4Draw s with
    | ((a, b, c, d), s4) =>
      if pyPublicHostOk a b c d then some (mkQuad a b c d, s4)
      else generate_public_ipv4 n s4

/-! ## Network-address arithmetic (model of `ipaddress.ip_network(strict=False)`) -/

/-- The 32-bit number of a dotted quad. -/
def quadNum (a b c d : Nat) : Nat := ((a * 256 + b) * 256 + c) * 256 + d

/-- The dotted quad of a 32-bit number. -/
def numQuad (n : Nat) : Nat × Nat × Nat × Nat :=
  (n / 16777216 % 256, n / 65536 % 256, n / 256 % 256, n % 256)

/-- Zero the host bits of `a.b.c.d` for a prefix length `p ≤ 32`, as
`ip_network(..., strict=False).network_address` does. -/
def netQuad (a b c d p : Nat) : Nat × Nat × Nat × Nat :=
  numQuad (quadNum a b c d / 2 ^ (32 - p) * 2 ^ (32 - p))

/-- `str(ip_network(f"{a}.{b}.{c}.{d}/{p}", strict=False))`. -/
def netString (a b c d p : Nat) : String :=
  let q := netQuad a b c d p
  mkQuad q.1 q.2.1 q.2.2.1 q.2.2.2 ++ "/" ++ Nat.repr p

/-- The host bits of `a.b.c.d` under prefix length `p` (zero exactly when the
string parses as a strict network). -/
def hostBits (a b c d p : Nat) : Nat := quadNum a b c d % 2 ^ (32 - p)

/-- `generate_private_network(prefix_len)`: branch on the prefix length,
draw random octets for a private-range network base with a zero fourth octet,
then normalize through `ip_network(strict=False)`.  The source's
`except ValueError` fallback fires only for prefix lengths above 32. -/
def generate_private_network (p : Nat) (s : RNG) : String × RNG :=
  let (q, s') :=
    if p ≤ 8 then
      let (b, s1) := randint 0 255 s
      let (c, s2) := randint 0 255 s1
      ((10, b, c, 0), s2)
    else if p ≤ 12 then
      let (b, s1) := randint 16 31 s
      let (c, s2) := randint 0 255 s1
      ((172, b, c, 0), s2)
    else if p ≤ 16 then
      let (coin, s1) := choiceIdx 2 s
      if coin = 0 then
        let (c, s2) := randint 0 255 s1
        ((192, 168, c, 0), s2)
      else
        let (b, s2) := randint 0 255 s1
        let (c, s3) := randint 0 255 s2
        ((10, b, c, 0), s3)
    else
      let (idx, s1) := choiceIdx 3 s
      if idx = 0 then
        let (c, s2) := randint 0 255 s1
        ((192, 168, c, 0), s2)
      else if idx = 1 then
        let (b, s2) := randint 0 255 s1
        let (c, s3) := randint 0 255 s2
        ((10, b, c, 0), s3)
      else
        let (b, s2) := randint 16 31 s1
        let (c, s3) := randint 0 255 s2
        ((172, b, c, 0), s3)
  if p ≤ 32 then
    (netString q.1 q.2.1 q.2.2.1 q.2.2.2 p, s')
  else
    let (b, s1) := randint 0 255 s'
    let (c, s2) := randint 0 255 s1
    (mkQuad 10 b c 0 ++ "/" ++ Nat.repr p, s2)

/-- The network-address re-check of `generate_public_network`: the normalized
network address must not be private, reserved or loopback (per CPython's
`ipaddress` predicates). -/
def pyPublicNetOk (a b c d p : Nat) : Bool :=
  let q := netQuad a b c d p
  !(pyIsPrivateQuad q.1 q.2.1 q.2.2.1 q.2.2.2 || pyIsReservedQuad q.1
      || pyIsLoopbackQuad q.1)

/-- The four octet draws of one `generate_public_network` attempt
(`first ∈ [1,223]`, the rest `∈ [0,255]`). -/
def gpnDraw (s : RNG) : (Nat × Nat × Nat × Nat) × RNG :=
  let (a, s1) := randint 1 223 s
  let (b, s2) := randint 0 255 s1
  let (c, s3) := randint 0 255 s2
  let (d, s4) := randint 0 255 s3
  ((a, b, c, d), s4)

/-- The bounded attempt loop of `generate_public_network` (`max_attempts =
200` in the source): draw a candidate, skip it if the candidate IP is private,
reserved, loopback or multicast, or if the normalized network address is
private, reserved or loopback; otherwise return the normalized network.  A
prefix length above 32 would raise `ValueError` and also skip the attempt. -/
def gpnAttempts : Nat → Nat → RNG → Option (String × RNG)
  | 0, _, _ => none
  | n + 1, p, s =>
    match gpnDraw s with
    | ((a, b, c, d), s4) =>
      if pyIsPrivateQuad a b c d || pyIsReservedQuad a || pyIsLoopbackQuad a
          || pyIsMulticastQuad a then
        gpnAttempts n p s4
      else if p ≤ 32 then
        if pyPublicNetOk a b c d p then some (netString a b c d p, s4)
        else gpnAttempts n p s4
      else
        gpnAttempts n p s4

/-- The deterministic fallback first octets of `generate_public_network`
("ranges that are clearly not private"). -/
def knownPublicFirstOctets : List Nat :=
  [45, 52, 54, 63, 74, 89, 104, 142, 157, 185, 199, 216]

/-- The fallback draws of `generate_public_network`: a `random.choice` index
into the known-public first octets, then two octet draws. -/
def gpnFallbackDraw (s : RNG) : Nat × Nat × Nat × RNG :=
  let (idx, s1) := choiceIdx 12 s
  let (b, s2) := randint 0 255 s1
  let (c, s3) := randint 0 255 s2
  (idx, b, c, s3)

/-- `generate_public_network(prefix_len)`: 200 bounded attempts, then the
deterministic fallback drawing the first octet from a known-public list.  The
fallback's own `except ValueError` fires only for prefix lengths above 32. -/
def generate_public_network (p : Nat) (s : RNG) : String × RNG :=
  match gpnAttempts 200 p s with
  | some r => r
  | none =>
    match gpnFallbackDraw s with
    | (idx, b, c, s3) =>
      let a := knownPublicFirstOctets.getD idx 45
      if p ≤ 32 then (netString a b c 0 p, s3)
      else
        let (b', s4) := randint 0 255 s3
        let (c', s5) := randint 0 255 s4
        (mkQuad 45 b' c' 0 ++ "/" ++ Nat.repr p, s5)

/-! ## CIDR parsing helpers (from `generators/synthetic.py`) -/

/-- Parse a digit string to a natural number (model of Python `int(...)` on
the numeric strings that occur after a `/`). -/
def parseNatDigits (cs : List Char) : Option Nat :=
  if cs ≠ [] ∧ cs.all (fun c => '0' ≤ c ∧ c ≤ '9') then some (digitsVal cs)
  else none

/-- `is_network_address(ip_str)`: `False` without a `/`; otherwise the string
must be exactly `addr/plen` with a valid IPv4 `addr`, a numeric `plen ≤ 32`
and all host bits zero (`ip_network(..., strict=True)`); any parse failure is
the `except ValueError` path. -/
def is_network_address (s : String) : Bool × Option Nat :=
  if ¬ s.toList.contains '/' then (false, none)
  else
    match splitOnChar '/' s.toList with
    | [addr, pstr] =>
      match parseNatDigits pstr, parseIPv4 (String.mk addr) with
      | some p, some (a, b, c, d) =>
        if p ≤ 32 && hostBits a b c d p = 0 then (true, some p)
        else (false, none)
      | _, _ => (false, none)
    | _ => (false, none)

/-- `parse_ip_with_cidr(ip_str)`: split at the first `/`, keeping the slash on
the suffix. -/
def parse_ip_with_cidr (s : String) : String × Option String :=
  if s.toList.contains '/' then
    (String.mk (s.toList.takeWhile (· ≠ '/')),
      some (String.mk (s.toList.dropWhile (· ≠ '/'))))
  else (s, none)

/-! ## Model of `re.search(r'(\d{1,3}\.){3}\d{1,3}', ...)`

For this pattern, a match at a given start position exists exactly when the
position begins with a run of 1–3 digits followed by `.`, three times, then a
final run of at least one digit of which the greedy quantifier takes at most
three.  `re.search` returns the leftmost such match. -/

def isDigitChar (c : Char) : Bool := '0' ≤ c && c ≤ '9'

/-- Match `\d{1,3}\.` at the head: a maximal run of 1–3 digits directly
followed by `.` (backtracking to fewer digits can never succeed, because the
following character would again be a digit). -/
def matchOctDot (cs : List Char) : Option (List Char × List Char) :=
  let run := cs.takeWhile isDigitChar
  if 1 ≤ run.length ∧ run.length ≤ 3 then
    match cs.drop run.length with
    | '.' :: rest => some (run ++ ['.'], rest)
    | _ => none
  else none

/-- Match the whole pattern at the head of the list, returning the matched
characters. -/
def tryMatchQuadAt (cs : List Char) : Option (List Char) := do
  let (m1, r1) ← matchOctDot cs
  let (m2, r2) ← matchOctDot r1
  let (m3, r3) ← matchOctDot r2
  let run := r3.takeWhile isDigitChar
  if run.length ≥ 1 then some (m1 ++ m2 ++ m3 ++ run.take 3) else none

/-- Leftmost match of the pattern anywhere in the list (`re.search`). -/
def reSearchQuad : List Char → Option String
  | [] => none
  | c :: rest =>
    match tryMatchQuadAt (c :: rest) with
    | some m => some (String.mk m)
    | none => reSearchQuad rest

/-! ## SHA-256 (model of `hashlib.sha256`, implemented from FIPS 180-4)

`MappingStore.compute_hash` calls `hashlib.sha256(combined.encode("utf-8"))`
and takes the lowercase hex digest.  Bytes and 32-bit words are naturals with
explicit reductions modulo `2^32`. -/

/-- UTF-8 encoding of a code point (model of `str.encode("utf-8")`). -/
def utf8Char (n : Nat) : List Nat :=
  if n < 128 then [n]
  else if n < 2048 then [192 + n / 64, 128 + n % 64]
  else if n < 65536 then [224 + n / 4096, 128 + n / 64 % 64, 128 + n % 64]
  else [240 + n / 262144, 128 + n / 4096 % 64, 128 + n / 64 % 64, 128 + n % 64]

/-- UTF-8 bytes of a string. -/
def utf8Bytes (s : String) : List Nat :=
  s.toList.flatMap (fun c => utf8Char c.toNat)

def w32 : Nat := 4294967296

/-- Right rotation of a 32-bit word. -/
def rotr32 (n x : Nat) : Nat := ((x >>> n) ||| (x <<< (32 - n))) % w32

def sumMod32 (xs : List Nat) : Nat := xs.foldl (· + ·) 0 % w32

def shaCh (x y z : Nat) : Nat := (x &&& y) ^^^ ((x ^^^ 4294967295) &&& z)

def shaMaj (x y z : Nat) : Nat := (x &&& y) ^^^ (x &&& z) ^^^ (y &&& z)

def bigSigma0 (x : Nat) : Nat := rotr32 2 x ^^^ rotr32 13 x ^^^ rotr32 22 x

def bigSigma1 (x : Nat) : Nat := rotr32 6 x ^^^ rotr32 11 x ^^^ rotr32 25 x

def smallSigma0 (x : Nat) : Nat := rotr32 7 x ^^^ rotr32 18 x ^^^ (x >>> 3)

def smallSigma1 (x : Nat) : Nat := rotr32 17 x ^^^ rotr32 19 x ^^^ (x >>> 10)

/-- The SHA-256 round constants (FIPS 180-4 §4.2.2, in decimal). -/
def shaK : List Nat :=
  [1116352408, 1899447441, 3049323471, 3921009573, 961987163, 1508970993,
   2453635748, 2870763221, 3624381080, 310598401, 607225278, 1426881987,
   1925078388, 2162078206, 2614888103, 3248222580, 3835390401, 4022224774,
   264347078, 604807628, 770255983, 1249150122, 1555081692, 1996064986,
   2554220882, 2821834349, 2952996808, 3210313671, 3336571891, 3584528711,
   113926993, 338241895, 666307205, 773529912, 1294757372, 1396182291,
   1695183700, 1986661051, 2177026350, 2456956037, 2730485921, 2820302411,
   3259730800, 3345764771, 3516065817, 3600352804, 4094571909, 275423344,
   430227734, 506948616, 659060556, 883997877, 958139571, 1322822218,
   1537002063, 1747873779, 1955562222, 2024104815, 2227730452, 2361852424,
   2428436474, 2756734187, 3204031479, 3329325298]

/-- The SHA-256 initial hash value (FIPS 180-4 §5.3.3, in decimal). -/
def shaH0 : List Nat :=
  [1779033703, 3144134277, 1013904242, 2773480762,
   1359893119, 2600822924, 528734635, 1541459225]

/-- Pad a message: append `0x80`, zeros to 56 mod 64 bytes, then the bit
length as 8 big-endian bytes. -/
def shaPad (msg : List Nat) : List Nat :=
  let len := msg.length
  let zeros := (119 - len % 64) % 64
  let bitLen := len * 8
  msg ++ [128] ++ List.replicate zeros 0 ++
    [bitLen / 2 ^ 56 % 256, bitLen / 2 ^ 48 % 256, bitLen / 2 ^ 40 % 256,
     bitLen / 2 ^ 32 % 256, bitLen / 2 ^ 24 % 256, bitLen / 2 ^ 16 % 256,
     bitLen / 2 ^ 8 % 256, bitLen % 256]

/-- Group bytes into big-endian 32-bit words. -/
def bytesToWords : List Nat → List Nat
  | b0 :: b1 :: b2 :: b3 :: rest =>
    (((b0 * 256 + b1) * 256 + b2) * 256 + b3) :: bytesToWords rest
  | _ => []

/-- Extend the 16-word message schedule to 64 words (48 extension steps). -/
def extendSchedule : Nat → List Nat → List Nat
  | 0, w => w
  | n + 1, w =>
    let t := w.length
    let x := sumMod32 [smallSigma1 (w.getD (t - 2) 0), w.getD (t - 7) 0,
                       smallSigma0 (w.getD (t - 15) 0), w.getD (t - 16) 0]
    extendSchedule n (w ++ [x])

/-- One block's 64 compression rounds over the working variables
`(a, b, c, d, e, f, g, h)`. -/
def shaRounds : List (Nat × Nat) →
    Nat × Nat × Nat × Nat × Nat × Nat × Nat × Nat →
    Nat × Nat × Nat × Nat × Nat × Nat × Nat × Nat
  | [], st => st
  | (k, wi) :: rest, (a, b, c, d, e, f, g, h) =>
    let t1 := sumMod32 [h, bigSigma1 e, shaCh e f g, k, wi]
    let t2 := sumMod32 [bigSigma0 a, shaMaj a b c]
    shaRounds rest (sumMod32 [t1, t2], a, b, c, sumMod32 [d, t1], e, f, g)

/-- Process one 64-byte block into the running hash (8 words). -/
def shaBlock (hs : List Nat) (block : List Nat) : List Nat :=
  let w := extendSchedule 48 (bytesToWords block)
  match hs with
  | [h0, h1, h2, h3, h4, h5, h6, h7] =>
    let (a, b, c, d, e, f, g, h) :=
      shaRounds (shaK.zip w) (h0, h1, h2, h3, h4, h5, h6, h7)
    [sumMod32 [h0, a], sumMod32 [h1, b], sumMod32 [h2, c], sumMod32 [h3, d],
     sumMod32 [h4, e], sumMod32 [h5, f], sumMod32 [h6, g], sumMod32 [h7, h]]
  | other => other

/-- Split bytes into 64-byte blocks (structural recursion on a fuel bounded
by the list length, so that the definition reduces in the kernel). -/
def chunk64Aux : Nat → List Nat → List (List Nat)
  | 0, _ => []
  | _, [] => []
  | fuel + 1, b :: bs => ((b :: bs).take 64) :: chunk64Aux fuel ((b :: bs).drop 64)

/-- Split padded bytes into 64-byte blocks. -/
def chunk64 (bs : List Nat) : List (List Nat) := chunk64Aux bs.length bs

/-- The eight-word SHA-256 digest of a byte list. -/
def sha256Words (msg : List Nat) : List Nat :=
  ((chunk64 (shaPad msg)).foldl shaBlock shaH0)

def hexDigit (n : Nat) : Char :=
  if n < 10 then Char.ofNat (48 + n) else Char.ofNat (87 + n)

/-- Lowercase hex of one 32-bit word (8 hex digits). -/
def wordHex (x : Nat) : List Char :=
  [hexDigit (x / 2 ^ 28 % 16), hexDigit (x / 2 ^ 24 % 16),
   hexDigit (x / 2 ^ 20 % 16), hexDigit (x / 2 ^ 16 % 16),
   hexDigit (x / 2 ^ 12 % 16), hexDigit (x / 2 ^ 8 % 16),
   hexDigit (x / 2 ^ 4 % 16), hexDigit (x % 16)]

/-- `hashlib.sha256(bytes).hexdigest()`. -/
def sha256Hex (msg : List Nat) : String :=
  String.mk ((sha256Words msg).flatMap wordHex)

/-! ## The mapping store (from `services/mapping_store.py` and
`models/pii_mapping.py`)

A database is a list of rows in insertion order; `Session.query(...).first()`
returns the first matching row.  The table carries the unique index
`idx_lookup` on `(original_hash, entity_type)`, so a flush that inserts a
second row with an existing key raises `IntegrityError` — modelled as
`Except.error ()`.  Timestamps (`datetime.utcnow()`) are passed in explicitly
as naturals. -/

structure PIIMapping where
  id : Nat
  original_hash : String
  substitute : String
  entity_type : String
  first_seen : Nat
  last_used : Nat
  substitution_count : Nat
deriving DecidableEq, Repr

/-- The string whose digest is the fingerprint: `f"{original_value}|{entity_type}"`. -/
def combined (original_value entity_type : String) : String :=
  original_value ++ "|" ++ entity_type

/-- `MappingStore.compute_hash`: SHA-256 hex digest of the UTF-8 encoding of
`value|entity_type`. -/
def compute_hash (original_value entity_type : String) : String :=
  sha256Hex (utf8Bytes (combined original_value entity_type))

/-- The filter of the primary lookup: same `original_hash` and same
`entity_type`. -/
def matchesKey (r : PIIMapping) (h t : String) : Bool :=
  r.original_hash = h && r.entity_type = t

/-- `MappingStore.get_substitute`: first row matching the fingerprint and
entity type, `None` otherwise. -/
def get_substitute (db : List PIIMapping) (original_value entity_type : String) :
    Option String :=
  (db.find? (matchesKey · (compute_hash original_value entity_type) entity_type)).map
    (·.substitute)

/-- The row (not just the substitute) found by the primary lookup — the
`.first()` of the filtered query. -/
def rowLookup (db : List PIIMapping) (original_value entity_type : String) :
    Option PIIMapping :=
  db.find? (matchesKey · (compute_hash original_value entity_type) entity_type)

/-- `MappingStore.create_mapping`: build a fresh row (`substitution_count = 1`,
`first_seen = last_used = now`) and flush it; the unique index rejects a
duplicate `(original_hash, entity_type)` with `IntegrityError`. -/
def create_mapping (db : List PIIMapping) (original_value substitute entity_type : String)
    (now : Nat) : Except Unit (List PIIMapping × PIIMapping) :=
  let h := compute_hash original_value entity_type
  if db.any (matchesKey · h entity_type) then .error ()
  else
    let m : PIIMapping :=
      { id := db.length + 1, original_hash := h, substitute := substitute,
        entity_type := entity_type, first_seen := now, last_used := now,
        substitution_count := 1 }
    .ok (db ++ [m], m)

/-- Increment the first matching row's count and touch `last_used`. -/
def incrFirst (h t : String) (now : Nat) : List PIIMapping → List PIIMapping × Nat
  | [] => ([], 0)
  | r :: rest =>
    if matchesKey r h t then
      ({ r with substitution_count := r.substitution_count + 1, last_used := now } :: rest,
        r.substitution_count + 1)
    else
      let (rest', n) := incrFirst h t now rest
      (r :: rest', n)

/-- `MappingStore.increment_count`: bump `substitution_count` and `last_used`
of the existing mapping; `0` when there is none. -/
def increment_count (db : List PIIMapping) (original_value entity_type : String)
    (now : Nat) : List PIIMapping × Nat :=
  incrFirst (compute_hash original_value entity_type) entity_type now db

/-- Python truthiness of `if existing:` — `None` and the empty string are
falsy. -/
def optTruthy : Option String → Bool
  | none => false
  | some s => s ≠ ""

/-- `MappingStore.get_or_create`: look up; on a (truthy) hit increment the
count and return the existing substitute with `is_new = False`; on a miss call
`generator_func(entity_type, original_value)` and insert.  The source wraps
the insert in no `try`, so a unique-index violation propagates to the
caller. -/
def get_or_create (db : List PIIMapping) (original_value entity_type : String)
    (generator_func : String → String → String) (now : Nat) :
    Except Unit (String × Bool × List PIIMapping) :=
  let existing := get_substitute db original_value entity_type
  if optTruthy existing then
    let (db', _) := increment_count db original_value entity_type now
    .ok (existing.getD "", false, db')
  else
    let substitute := generator_func entity_type original_value
    match create_mapping db original_value substitute entity_type now with
    | .ok (db', _) => .ok (substitute, true, db')
    | .error e => .error e

/-- `get_or_create` with a concurrent writer: the other writer's row `other`
is committed between this caller's lookup and its insert (the race of
§4.3/§7).  The lookup sees the pre-race database, the insert sees the database
with `other` present. -/
def get_or_create_raced (db : List PIIMapping) (other : PIIMapping)
    (original_value entity_type : String)
    (generator_func : String → String → String) (now : Nat) :
    Except Unit (String × Bool × List PIIMapping) :=
  let existing := get_substitute db original_value entity_type
  if optTruthy existing then
    let (db', _) := increment_count db original_value entity_type now
    .ok (existing.getD "", false, db')
  else
    let substitute := generator_func entity_type original_value
    match create_mapping (db ++ [other]) original_value substitute entity_type now with
    | .ok (db', _) => .ok (substitute, true, db')
    | .error e => .error e

/-- The uniqueness invariant of the `idx_lookup` index: no two rows share
`(original_hash, entity_type)`. -/
def uniqueIndex (db : List PIIMapping) : Prop :=
  db.Pairwise fun r1 r2 =>
    ¬(r1.original_hash = r2.original_hash ∧ r1.entity_type = r2.entity_type)

/-! ## The synthetic generator (from `generators/synthetic.py`)

The generator draws from two separate random sources that the source file
never mixes:

* the Faker instance `self._faker`, whose state is replaced by
  `seed_instance(...)` when a fingerprint is supplied — modelled as a natural
  number `fakerSt`, with every Faker provider method a deterministic function
  of it (Faker's documented seeding guarantee; the concrete output text is a
  model of the external library, not of repository code);
* the module-level `random` (and `uuid.uuid4`) — modelled by the `RNG`
  stream, which `seed_instance` does **not** touch.

External datasets (`names_dataset`, `geonamescache`) are modelled as
environment fields. -/

/-- Model of a text-producing Faker provider method: deterministic in the
instance state. -/
def fakerStr (method : String) (st : Nat) : String := method ++ "#" ++ Nat.repr st

/-- Model of `Faker.random_number(digits=n)`. -/
def fakerNum (digits st : Nat) : Nat := st % 10 ^ digits

/-- Model of `Faker.random_uppercase_letter()`. -/
def fakerUpperChar (st : Nat) : Char := Char.ofNat (65 + st % 26)

/-- Model of `int(hashlib.md5(original_hash.encode()).hexdigest()[:8], 16)`:
a fixed deterministic function of the fingerprint string. -/
def md5SeedOf (s : String) : Nat :=
  (utf8Bytes s).foldl (fun acc b => (acc * 131 + b) % w32) 0

structure GenEnv where
  /-- State of the Faker instance `self._faker` (reseeded by fingerprints). -/
  fakerSt : Nat
  /-- The module-level `random` stream (never reseeded by fingerprints). -/
  rng : RNG
  /-- `NAMES_DATASET_AVAILABLE`. -/
  namesAvailable : Bool
  /-- `_geonames_cities` names (`GEONAMES_AVAILABLE` iff nonempty). -/
  geonamesCities : List String
  /-- Model of `_detect_name_country`'s scoring over the external dataset. -/
  namesCountry : String → Option String
  /-- Model of `_get_names_for_country(...)["first_male"]`. -/
  countryFirstMale : String → List String
  /-- Model of `_get_names_for_country(...)["first_female"]`. -/
  countryFirstFemale : String → List String
  /-- Model of `_get_names_for_country(...)["last"]`. -/
  countryLast : String → List String

/-- Characters `_is_latin_script` skips: whitespace and `-'.`. -/
def isSkippedChar (c : Char) : Bool :=
  c = ' ' || c = '\t' || c = '\n' || c = '\x0d' || c = '-' || c = '\'' || c = '.'

/-- A character counted as Latin: ASCII alphabetic, or Latin Extended
`U+00C0`–`U+024F`. -/
def isLatinChar (c : Char) : Bool :=
  (c.toNat < 128 && c.isAlpha) || (192 ≤ c.toNat && c.toNat ≤ 591)

/-- `_is_latin_script`: more than 80% of significant characters Latin (the
ratio comparison `latin/non_space > 0.8` as exact arithmetic). -/
def _is_latin_script (s : String) : Bool :=
  if s = "" then true
  else
    let sig := s.toList.filter (fun c => !isSkippedChar c)
    if sig.length = 0 then true
    else 5 * (sig.filter isLatinChar).length > 4 * sig.length

/-- `_filter_latin_names`. -/
def _filter_latin_names (names : List String) : List String :=
  names.filter _is_latin_script

/-- `_detect_name_country`: `None` without the dataset or for an empty name;
otherwise the dataset's best-scoring country (modelled by
`env.namesCountry`). -/
def _detect_name_country (env : GenEnv) (name : String) : Option String :=
  if !env.namesAvailable || name = "" then none else env.namesCountry name

/-- `random.choice` on a string list, with the Faker fallback the source uses
when the list is empty. -/
def choiceStr (xs : List String) (fallback : String) (s : RNG) : String × RNG :=
  let (i, s') := choiceIdx xs.length s
  (xs.getD i fallback, s')

/-- `SyntheticGenerator._generate_person`: detect origin and script, pick a
same-origin name (random gender) from the dataset via the module-level
`random`, or fall back to `self._faker.name()`. -/
def _generate_person (env : GenEnv) (original : Option String) : String :=
  match original with
  | some o =>
    if env.namesAvailable then
      match _detect_name_country env o with
      | some country =>
        let fm0 := env.countryFirstMale country
        let ff0 := env.countryFirstFemale country
        let ln0 := env.countryLast country
        let latin := _is_latin_script o
        let fm := if latin then _filter_latin_names fm0 else fm0
        let ff := if latin then _filter_latin_names ff0 else ff0
        let ln := if latin then _filter_latin_names ln0 else ln0
        if (fm ≠ [] ∨ ff ≠ []) ∧ ln ≠ [] then
          let (coin, s1) := choiceIdx 2 env.rng
          let (first, s2) :=
            if coin = 0 ∧ fm ≠ [] then choiceStr fm "" s1
            else if ff ≠ [] then choiceStr ff "" s1
            else if fm ≠ [] then choiceStr fm "" s1
            else (fakerStr "first_name" env.fakerSt, s1)
          let (last, _) :=
            if ln ≠ [] then choiceStr ln "" s2
            else (fakerStr "last_name" env.fakerSt, s2)
          first ++ " " ++ last
        else fakerStr "name" env.fakerSt
      | none => fakerStr "name" env.fakerSt
    else fakerStr "name" env.fakerSt
  | none => fakerStr "name" env.fakerSt

/-- `SyntheticGenerator._generate_itin`: all four draws come from the
module-level `random`, none from the seeded Faker instance. -/
def _generate_itin (env : GenEnv) : String :=
  let (middle, s1) := randint 70 99 env.rng
  let (last, s2) := randint 1000 9999 s1
  let (r1, s3) := randint 0 9 s2
  let (r2, _) := randint 0 9 s3
  "9" ++ Nat.repr r1 ++ Nat.repr r2 ++ "-" ++ Nat.repr middle ++ "-" ++ Nat.repr last

/-- `SyntheticGenerator._generate_ip`: dispatch between network / host ×
private / public, preserving any CIDR suffix; all randomness is the
module-level `random`. -/
def _generate_ip (fuel : Nat) (rng : RNG) (original : Option String) :
    Option (String × RNG) :=
  match original with
  | none => generate_public_ipv4 fuel rng
  | some o =>
    match is_network_address o with
    | (true, some plen) =>
      let ipPart := String.mk ((splitOnChar '/' o.toList).headD [])
      if is_private_ip ipPart then some (generate_private_network plen rng)
      else some (generate_public_network plen rng)
    | _ =>
      let (ipPart, cidr) := parse_ip_with_cidr o
      match reSearchQuad ipPart.toList with
      | none => generate_public_ipv4 fuel rng
      | some ipStr =>
        let newIp? :=
          if is_private_ip ipStr then some (generate_private_ipv4 rng)
          else generate_public_ipv4 fuel rng
        match newIp?, cidr with
        | some (ip, s'), some sfx => some (ip ++ sfx, s')
        | some (ip, s'), none => some (ip, s')
        | none, _ => none

/-- `_generate_location`: a geonames city via the module-level `random`, or
`self._faker.city()`. -/
def _generate_location (env : GenEnv) : String :=
  if env.geonamesCities ≠ [] then
    (choiceStr env.geonamesCities (fakerStr "city" env.fakerSt) env.rng).1
  else fakerStr "city" env.fakerSt

/-- Base-58-style alphabet of `_generate_crypto`. -/
def cryptoChars : List Char :=
  "123456789ABCDEFGHJKLMNPQRSTUVWXYZabcdefghijkmnopqrstuvwxyz".toList

/-- `random.choices(chars, k=n)` as `n` draws. -/
def drawChars : Nat → RNG → List Char × RNG
  | 0, s => ([], s)
  | n + 1, s =>
    let (i, s1) := choiceIdx cryptoChars.length s
    let (rest, s2) := drawChars n s1
    (cryptoChars.getD i '1' :: rest, s2)

/-- `SyntheticGenerator._generate_crypto`: module-level `random` only. -/
def _generate_crypto (env : GenEnv) : String :=
  let (pIdx, s1) := choiceIdx 3 env.rng
  let p := ["1", "3", "bc1"].getD pIdx "1"
  let (addr, _) := drawChars 32 s1
  p ++ String.mk addr

/-- Model of `uuid.uuid4()`: 32 random hex digits in 8-4-4-4-12 groups; the
entropy is ambient randomness (`os.urandom`), modelled by the same stream as
the module-level `random`. -/
def _generate_guid (env : GenEnv) : String :=
  let draw := fun (k : Nat) (s : RNG) =>
    let (ds, s') := drawChars k s
    (ds.map (fun c => hexDigit ((c.toNat) % 16)), s')
  let (g1, s1) := draw 8 env.rng
  let (g2, s2) := draw 4 s1
  let (g3, s3) := draw 4 s2
  let (g4, s4) := draw 4 s3
  let (g5, _) := draw 12 s4
  String.mk g1 ++ "-" ++ String.mk g2 ++ "-" ++ String.mk g3 ++ "-"
    ++ String.mk g4 ++ "-" ++ String.mk g5

/-- `SyntheticGenerator._generate_nrp`: one module-level `random.choice`. -/
def _generate_nrp (env : GenEnv) : String :=
  (choiceStr ["Group A", "Organization B", "Community C", "Association D"] "" env.rng).1

/-- `SyntheticGenerator._generate_default`: the labelled placeholder with a
Faker-drawn numeric suffix. -/
def _generate_default (env : GenEnv) : String :=
  "<REDACTED_" ++ Nat.repr (fakerNum 6 env.fakerSt) ++ ">"

namespace SyntheticGenerator

/-- `SyntheticGenerator.generate`: reseed the Faker instance from the
fingerprint when one is supplied (the module-level `random` stream is **not**
reseeded), then dispatch on the entity type exactly as `self._generators`
does, defaulting to `_generate_default`.  `fuel` bounds the one unbounded
loop (`generate_public_ipv4`'s `while True`); every other branch returns
`some`. -/
def generate (fuel : Nat) (env : GenEnv) (entity_type : String)
    (original_value : Option String) (original_hash : Option String) :
    Option String :=
  let env := match original_hash with
    | some h => { env with fakerSt := md5SeedOf h }
    | none => env
  match entity_type with
  | "PERSON" => some (_generate_person env original_value)
  | "EMAIL_ADDRESS" => some (fakerStr "email" env.fakerSt)
  | "PHONE_NUMBER" => some (fakerStr "phone_number" env.fakerSt)
  | "CREDIT_CARD" => some (fakerStr "credit_card_number_visa" env.fakerSt)
  | "US_SSN" => some (fakerStr "ssn" env.fakerSt)
  | "US_BANK_NUMBER" => some (fakerStr "bban" env.fakerSt)
  | "US_DRIVER_LICENSE" =>
    some (String.mk [fakerUpperChar env.fakerSt]
      ++ Nat.repr (fakerNum 12 (env.fakerSt + 1)))
  | "US_ITIN" => some (_generate_itin env)
  | "US_PASSPORT" => some (fakerStr "passport_number" env.fakerSt)
  | "IP_ADDRESS" => (_generate_ip fuel env.rng original_value).map (·.1)
  | "LOCATION" => some (_generate_location env)
  | "STREET_ADDRESS" => some (fakerStr "street_address" env.fakerSt)
  | "DATE_TIME" => some (fakerStr "date" env.fakerSt)
  | "NRP" => some (_generate_nrp env)
  | "MEDICAL_LICENSE" => some ("ML" ++ Nat.repr (fakerNum 8 env.fakerSt))
  | "URL" => some (fakerStr "url" env.fakerSt)
  | "IBAN_CODE" => some (fakerStr "iban" env.fakerSt)
  | "CRYPTO" => some (_generate_crypto env)
  | "GUID" => some (_generate_guid env)
  | _ => some (_generate_default env)

end SyntheticGenerator

/-! ## Detection and anonymization (from `services/detector.py`,
`services/anonymizer.py` and the `consistent_replace` operator)

Text is a list of characters (Python string indexing is by code point).  The
external Presidio analyzer is modelled as an input: a list of raw
`(entity_type, start, end, score)` spans.  The Presidio anonymizer engine is
modelled by its documented replace semantics: each non-overlapping analyzer
span is replaced by the registered operator's output for the span's text, and
the returned items carry positions in the *output* text. -/

/-- Python `text[a:b]` for `0 ≤ a ≤ b`. -/
def slice (text : List Char) (a b : Nat) : List Char :=
  (text.drop a).take (b - a)

/-- A raw span as returned by the external analyzer (`RecognizerResult`).
`stop` is Python's `end` (a Lean keyword). -/
structure RawSpan where
  entity_type : String
  start : Nat
  stop : Nat
  score : Rat
deriving DecidableEq, Repr

/-- `DetectionResult` from `services/detector.py`: the raw span plus the
actual text detected (`text[result.start : result.end]`). -/
structure DetectionResult where
  entity_type : String
  start : Nat
  stop : Nat
  score : Rat
  text : List Char
deriving DecidableEq, Repr

namespace PIIDetector

/-- `PIIDetector.detect`, given the analyzer's raw results: convert each to a
`DetectionResult` carrying the detected text, then sort by start position
(`detection_results.sort(key=lambda r: r.start)`). -/
def detect (text : List Char) (analyzed : List RawSpan) : List DetectionResult :=
  (analyzed.map fun r =>
    { entity_type := r.entity_type, start := r.start, stop := r.stop,
      score := r.score, text := slice text r.start r.stop }).insertionSort
    (fun a b => a.start ≤ b.start)

end PIIDetector

/-- An entry of `engine_result.items`: positions are in the output text,
`text` is the substitute that was written. -/
structure EngineItem where
  start : Nat
  stop : Nat
  entity_type : String
  text : String
deriving DecidableEq, Repr

/-- Model of the Presidio `AnonymizerEngine` run with the
`consistent_replace` operator: walk the non-overlapping spans left to right,
copy the gap since the previous span, and replace each span's slice of the
original text by `F entity_type slice` (the operator's `operate`, which is
`get_or_create` under the hood).  `pos` is the cursor in the original text,
`outPos` the cursor in the output text. -/
def engineRun (text : List Char) (F : String → List Char → String) :
    List DetectionResult → Nat → Nat → List Char × List EngineItem
  | [], pos, _ => (text.drop pos, [])
  | d :: rest, pos, outPos =>
    let gap := slice text pos d.start
    let sub := F d.entity_type (slice text d.start d.stop)
    let itemStart := outPos + gap.length
    let itemStop := itemStart + sub.length
    let r := engineRun text F rest d.stop itemStop
    (gap ++ sub.toList ++ r.1,
      { start := itemStart, stop := itemStop, entity_type := d.entity_type,
        text := sub } :: r.2)

/-- `SubstitutionInfo` from `services/anonymizer.py`. -/
structure SubstitutionInfo where
  start : Nat
  stop : Nat
  entity_type : String
  original_length : Nat
  substitute : String
deriving DecidableEq, Repr

/-- `AnonymizationResult` (the fields the hard core computes). -/
structure AnonymizationResult where
  anonymized_text : List Char
  substitutions : List SubstitutionInfo
  entities_detected : Nat
  entities_anonymized : Nat
deriving DecidableEq, Repr

namespace PIIAnonymizer

/-- `PIIAnonymizer.anonymize`: detect; when nothing was found return the
original text; otherwise run the engine, then zip the detections and the
engine items — both sorted by start position — into `SubstitutionInfo`
records whose `start`/`end` are the detection's positions in the *original*
text and whose `substitute` is the engine item's output text. -/
def anonymize (text : List Char) (analyzed : List RawSpan)
    (F : String → List Char → String) : AnonymizationResult :=
  let detections := PIIDetector.detect text analyzed
  if detections = [] then
    { anonymized_text := text, substitutions := [],
      entities_detected := 0, entities_anonymized := 0 }
  else
    let r := engineRun text F detections 0 0
    let sorted_detections := detections.insertionSort (fun a b => a.start ≤ b.start)
    let sorted_items := r.2.insertionSort (fun a b => a.start ≤ b.start)
    let substitutions := (sorted_detections.zip sorted_items).map fun p =>
      { start := p.1.start, stop := p.1.stop, entity_type := p.1.entity_type,
        original_length := p.1.stop - p.1.start, substitute := p.2.text }
    { anonymized_text := r.1, substitutions := substitutions,
      entities_detected := detections.length,
      entities_anonymized := substitutions.length }

end PIIAnonymizer

/-- Re-reading reported original-text positions: replace each reported span
`[start, stop)` of the *original* text by its reported substitute, left to
right.  Offset fidelity says the engine's output equals this
reconstruction. -/
def rewriteFrom (text : List Char) : Nat → List SubstitutionInfo → List Char
  | pos, [] => text.drop pos
  | pos, si :: rest =>
    slice text pos si.start ++ si.substitute.toList ++ rewriteFrom text si.stop rest

/-- The expected substitution records: one per detection, at the detection's
original positions, replaced by the operator output for the original slice. -/
def specSubs (text : List Char) (F : String → List Char → String)
    (ds : List DetectionResult) : List SubstitutionInfo :=
  ds.map fun d =>
    { start := d.start, stop := d.stop, entity_type := d.entity_type,
      original_length := d.stop - d.start,
      substitute := F d.entity_type (slice text d.start d.stop) }

/-- Spans listed in processing order: each starts no earlier than the cursor,
is nonempty, and ends within the text. -/
def OrderedSpans (len : Nat) : Nat → List DetectionResult → Prop
  | _, [] => True
  | pos, d :: rest =>
    pos ≤ d.start ∧ d.start < d.stop ∧ d.stop ≤ len ∧ OrderedSpans len d.stop rest

/-! ## Request validation (from `api/schemas.py` and `services/detector.py`)

Pydantic validates `AnonymizeRequest` before the route handler runs: `text`
must have between 1 and 1,000,000 characters and a supplied
`confidence_threshold` must lie in `[0, 1]`.  Scores are rationals in the
embedding.  `PIIDetector.detect` then *filters* the requested entity types
to the supported ones (`entity_types or SUPPORTED`, then a list
comprehension) — it never rejects a request over them. -/

/-- `PIIDetector.SUPPORTED_ENTITY_TYPES`. -/
def SUPPORTED_ENTITY_TYPES : List String :=
  ["PERSON", "EMAIL_ADDRESS", "PHONE_NUMBER", "CREDIT_CARD", "US_SSN",
   "US_BANK_NUMBER", "US_DRIVER_LICENSE", "US_ITIN", "US_PASSPORT",
   "IP_ADDRESS", "LOCATION", "STREET_ADDRESS", "DATE_TIME", "NRP",
   "MEDICAL_LICENSE", "URL", "IBAN_CODE", "CRYPTO", "GUID", "COORDINATE"]

structure AnonymizeRequest where
  text : String
  entity_types : Option (List String)
  confidence_threshold : Option Rat

/-- The pydantic field constraints of `AnonymizeRequest`:
`min_length=1`, `max_length=1_000_000`, `ge=0.0`, `le=1.0`. -/
def validateAnonymizeRequest (r : AnonymizeRequest) : Bool :=
  1 ≤ r.text.length && r.text.length ≤ 1000000 &&
    (match r.confidence_threshold with
     | none => true
     | some c => decide (0 ≤ c) && decide (c ≤ 1))

/-- The entity-type selection of `PIIDetector.detect`:
`entity_types or self.SUPPORTED_ENTITY_TYPES` (Python truthiness: an empty
list also falls back), then keep only supported ones. -/
def entities_to_detect (entity_types : Option (List String)) : List String :=
  let base := match entity_types with
    | none => SUPPORTED_ENTITY_TYPES
    | some l => if l = [] then SUPPORTED_ENTITY_TYPES else l
  base.filter (fun e => SUPPORTED_ENTITY_TYPES.contains e)

/-! ## Concrete fixtures used by counterexamples and witnesses -/

/-- A generator environment with the optional datasets absent and the
module-level random stream constantly zero. -/
def env0 : GenEnv :=
  { fakerSt := 0, rng := fun _ => 0, namesAvailable := false,
    geonamesCities := [], namesCountry := fun _ => none,
    countryFirstMale := fun _ => [], countryFirstFemale := fun _ => [],
    countryLast := fun _ => [] }

/-- `env0` with the module-level random stream constantly one. -/
def env1 : GenEnv := { env0 with rng := fun _ => 1 }

/-- SHA-256 of `"x|PERSON"`, the fingerprint of value `"x"` with entity type
`"PERSON"` (checked below against `compute_hash`). -/
def xPersonHash : String :=
  "d1dc8b745c5c62b9ee5430ba75193093470beacd65652eeb3b581b89e157c28c"

/-- The database after `get_or_create [] "x" "PERSON"` with a generator that
returned the empty string. -/
def dbAfterEmptyCreate : List PIIMapping :=
  [{ id := 1, original_hash := xPersonHash, substitute := "",
     entity_type := "PERSON", first_seen := 0, last_used := 0,
     substitution_count := 1 }]

/-- The row a concurrent writer inserts for `("x", "PERSON")` in the race
scenario. -/
def racedRow : PIIMapping :=
  { id := 1, original_hash := xPersonHash, substitute := "WINNER",
    entity_type := "PERSON", first_seen := 0, last_used := 0,
    substitution_count := 1 }

/-- A stored mapping for `("x", "PERSON")` with a nonempty substitute. -/
def storedRow : PIIMapping :=
  { id := 1, original_hash := xPersonHash, substitute := "Jane Roe",
    entity_type := "PERSON", first_seen := 5, last_used := 5,
    substitution_count := 3 }

/-! # Theorems -/

/-! ## Fingerprints (C9, C10) -/

/-- C9: for a fixed value, distinct entity types always produce distinct
digest *inputs*; equal fingerprints for distinct types would therefore
exhibit a SHA-256 collision; and on a concrete value the PERSON and LOCATION
fingerprints indeed differ (evaluating the embedded SHA-256).  The universal
digest-level inequality is exactly collision-freeness of SHA-256 on these
inputs, which holds for every input pair anyone can exhibit. -/
theorem c9_fingerprint_distinct_types :
    (∀ v t1 t2 : String, t1 ≠ t2 → combined v t1 ≠ combined v t2)
    ∧ (∀ v t1 t2 : String, t1 ≠ t2 → compute_hash v t1 = compute_hash v t2 →
        ∃ x y : String, x ≠ y ∧ sha256Hex (utf8Bytes x) = sha256Hex (utf8Bytes y))
    ∧ compute_hash "John" "PERSON" ≠ compute_hash "John" "LOCATION" := by
  have hinj : ∀ v t1 t2 : String, t1 ≠ t2 → combined v t1 ≠ combined v t2 := by
    intro v t1 t2 hne heq
    apply hne
    have hd := congrArg String.data heq
    simp only [combined, String.data_append] at hd
    exact String.ext (List.append_cancel_left hd)
  refine ⟨hinj, ?_, by decide⟩
  intro v t1 t2 hne heq
  exact ⟨combined v t1, combined v t2, hinj v t1 t2 hne, heq⟩

/-- C9 witness: the theorem applied at a concrete value and the concrete
distinct types. -/
theorem c9_witness :
    combined "John" "PERSON" ≠ combined "John" "LOCATION" :=
  c9_fingerprint_distinct_types.1 "John" "PERSON" "LOCATION" (by decide)

/-- C10: `compute_hash` depends only on the concatenation
`value ++ "|" ++ entity_type`, so distinct pairs with equal concatenations
collide; in particular `("a|b", "t")` and `("a", "b|t")` are distinct pairs
with the same fingerprint. -/
theorem c10_hash_concat_collision :
    (∀ v1 t1 v2 t2 : String, combined v1 t1 = combined v2 t2 →
      compute_hash v1 t1 = compute_hash v2 t2)
    ∧ combined "a|b" "t" = combined "a" "b|t"
    ∧ compute_hash "a|b" "t" = compute_hash "a" "b|t"
    ∧ ("a|b", "t") ≠ (("a", "b|t") : String × String) := by
  have hdep : ∀ v1 t1 v2 t2 : String, combined v1 t1 = combined v2 t2 →
      compute_hash v1 t1 = compute_hash v2 t2 := by
    intro v1 t1 v2 t2 h
    simp only [compute_hash, h]
  exact ⟨hdep, by decide, hdep "a|b" "t" "a" "b|t" (by decide), by decide⟩

/-- C10 witness: the dependence on the concatenation applied at the concrete
colliding pair. -/
theorem c10_witness :
    compute_hash "no|te" "x" = compute_hash "no" "te|x" :=
  c10_hash_concat_collision.1 "no|te" "x" "no" "te|x" (by decide)

/-! ## Generator counterexamples and determinism (C3, C4) -/

/-- C3 counterexample: regenerating the private address `10.0.0.1` can draw
exactly the original octets — the generator has no check against returning
the original value verbatim, so `generate("IP_ADDRESS", "10.0.0.1")` returns
`"10.0.0.1"` for the concrete random stream that is constantly zero. -/
theorem c3_counterexample :
    SyntheticGenerator.generate 1 env0 "IP_ADDRESS" (some "10.0.0.1") none
      = some "10.0.0.1" := by decide

/-- C3 (amended): the generators do not guarantee avoiding the original
value; for some entity type, original value and random stream the substitute
equals the original verbatim. -/
theorem c3_original_value_can_reappear :
    ∃ (env : GenEnv) (fuel : Nat) (t v : String),
      SyntheticGenerator.generate fuel env t (some v) none = some v :=
  ⟨env0, 1, "IP_ADDRESS", "10.0.0.1", by decide⟩

/-- C4 counterexample: `_generate_itin` draws from the module-level `random`,
which `seed_instance` does not reseed, so two calls with the same entity
type, the same original value and the same fingerprint give different
outputs when the ambient random streams differ. -/
theorem c4_counterexample :
    SyntheticGenerator.generate 1 env0 "US_ITIN" (some "912-70-1234") (some "abc")
      ≠ SyntheticGenerator.generate 1 env1 "US_ITIN" (some "912-70-1234") (some "abc") := by
  decide

/-- C4 (amended): determinism under a supplied fingerprint holds exactly for
the entity types whose generators draw only from the seeded Faker instance;
for those, the output is a function of the fingerprint alone — independent of
the ambient random stream, the prior Faker state, the fuel and the spare
environment data. -/
theorem c4_seeded_determinism_for_faker_types :
    ∀ t ∈ ["EMAIL_ADDRESS", "PHONE_NUMBER", "CREDIT_CARD", "US_SSN",
           "US_BANK_NUMBER", "US_DRIVER_LICENSE", "US_PASSPORT",
           "STREET_ADDRESS", "DATE_TIME", "MEDICAL_LICENSE", "URL",
           "IBAN_CODE"],
      ∀ (fuel1 fuel2 : Nat) (e1 e2 : GenEnv) (v : Option String) (h : String),
        SyntheticGenerator.generate fuel1 e1 t v (some h)
          = SyntheticGenerator.generate fuel2 e2 t v (some h) := by
  intro t ht fuel1 fuel2 e1 e2 v h
  fin_cases ht <;> rfl

/-- C4 witness: the determinism theorem applied at `EMAIL_ADDRESS`, with two
different environments, fuels and ambient streams but the same fingerprint. -/
theorem c4_witness :
    SyntheticGenerator.generate 0 env0 "EMAIL_ADDRESS" none (some "abc")
      = SyntheticGenerator.generate 3 env1 "EMAIL_ADDRESS" none (some "abc") :=
  c4_seeded_determinism_for_faker_types "EMAIL_ADDRESS" (by decide) 0 3 env0 env1
    none "abc"

/-! ## Mapping store (C1, C2) -/

theorem matchesKey_update (r : PIIMapping) (h t : String) (now cnt : Nat) :
    matchesKey { r with substitution_count := cnt, last_used := now } h t
      = matchesKey r h t := rfl

theorem find?_incrFirst (h t : String) (now : Nat) :
    ∀ (db : List PIIMapping) (r : PIIMapping),
      db.find? (matchesKey · h t) = some r →
      (incrFirst h t now db).1.find? (matchesKey · h t)
        = some { r with substitution_count := r.substitution_count + 1,
                        last_used := now } := by
  intro db
  induction db with
  | nil => intro r hr; simp at hr
  | cons x xs ih =>
    intro r hr
    by_cases hx : matchesKey x h t = true
    · rw [List.find?_cons_of_pos (p := fun y => matchesKey y h t) xs hx] at hr
      obtain rfl : x = r := by injection hr
      simp only [incrFirst, hx, if_true]
      exact List.find?_cons_of_pos (p := fun y => matchesKey y h t) _
        (by simpa [matchesKey] using hx)
    · rw [List.find?_cons_of_neg (p := fun y => matchesKey y h t) xs hx] at hr
      simp only [incrFirst, hx, if_false, Bool.false_eq_true]
      rw [List.find?_cons_of_neg (p := fun y => matchesKey y h t) _ hx]
      exact ih r hr

/-- C1 (amended): `get_or_create` is consistent for substitutes that are not
the empty string.  After a successful creation the stored row carries the
returned substitute with `substitution_count = 1` and `first_seen =
last_used = now`; and whenever a stored row with a nonempty substitute
exists, every further call — with any generator — returns exactly that
substitute with `was_created = false`, increments `substitution_count` by
one, updates `last_used`, and leaves `first_seen` (and the substitute)
unchanged.  (Python's `if existing:` treats an empty stored substitute as a
miss, so the empty-substitute case instead hits the unique index — see the
counterexample.) -/
theorem c1_consistency_for_nonempty_substitutes :
    (∀ (db : List PIIMapping) (v t : String) (gen : String → String → String)
        (now : Nat) (s : String) (db1 : List PIIMapping),
        get_or_create db v t gen now = .ok (s, true, db1) →
        rowLookup db1 v t = some
          { id := db.length + 1, original_hash := compute_hash v t,
            substitute := s, entity_type := t, first_seen := now,
            last_used := now, substitution_count := 1 })
    ∧ (∀ (db : List PIIMapping) (v t : String) (gen : String → String → String)
        (now : Nat) (r : PIIMapping),
        rowLookup db v t = some r → r.substitute ≠ "" →
        get_or_create db v t gen now
          = .ok (r.substitute, false, (increment_count db v t now).1)
        ∧ rowLookup (increment_count db v t now).1 v t = some
            { r with substitution_count := r.substitution_count + 1,
                     last_used := now }) := by
  constructor
  · intro db v t gen now s db1 hcall
    by_cases htr : optTruthy (get_substitute db v t) = true
    · simp only [get_or_create, htr, if_true] at hcall
      simp at hcall
    · simp only [get_or_create, htr, Bool.not_eq_true, if_false] at hcall
      rw [Bool.not_eq_true] at htr
      simp only [htr, Bool.false_eq_true, if_false] at hcall
      by_cases hany : db.any (matchesKey · (compute_hash v t) t) = true
      · simp only [create_mapping, hany, if_true] at hcall
        simp at hcall
      · rw [Bool.not_eq_true] at hany
        simp only [create_mapping, hany, Bool.false_eq_true, if_false] at hcall
        simp only [Except.ok.injEq, Prod.mk.injEq, true_and] at hcall
        obtain ⟨hs, hdb1⟩ := hcall
        subst hdb1
        have hnone : db.find? (matchesKey · (compute_hash v t) t) = none := by
          rw [List.find?_eq_none]
          intro a ha hpa
          exact (List.any_eq_false.mp hany a ha) hpa
        rw [rowLookup, List.find?_append, hnone]
        simp only [Option.none_or]
        rw [List.find?_cons_of_pos
          (p := fun y => matchesKey y (compute_hash v t) t) _ (by simp [matchesKey])]
        simp [hs]
  · intro db v t gen now r hr hs
    have hgs : get_substitute db v t = some r.substitute := by
      simp only [get_substitute]
      rw [show db.find? (matchesKey · (compute_hash v t) t) = some r from hr]
      rfl
    have htup : optTruthy (some r.substitute) = true := by
      simpa [optTruthy] using hs
    constructor
    · simp [get_or_create, hgs, htup, Option.getD]
    · exact find?_incrFirst (compute_hash v t) t now db r hr

/-- C1 counterexample: with a generator that returns the empty string, the
first call stores an empty substitute; the second call's `if existing:` is
falsy on the empty string, so it retries the insert and surfaces the unique
index violation instead of returning the same substitute with
`was_created = false`. -/
theorem c1_counterexample :
    get_or_create [] "x" "PERSON" (fun _ _ => "") 0
      = .ok ("", true, dbAfterEmptyCreate)
    ∧ get_or_create dbAfterEmptyCreate "x" "PERSON" (fun _ _ => "") 1
      = .error () :=
  ⟨by decide, by decide⟩

/-- C1 witness: the consistency theorem applied at a concrete one-row store
holding a nonempty substitute. -/
theorem c1_witness :
    rowLookup [storedRow] "x" "PERSON" = some storedRow
    ∧ storedRow.substitute ≠ ""
    ∧ (get_or_create [storedRow] "x" "PERSON" (fun _ _ => "OTHER") 9
        = .ok (storedRow.substitute, false,
            (increment_count [storedRow] "x" "PERSON" 9).1)
       ∧ rowLookup (increment_count [storedRow] "x" "PERSON" 9).1 "x" "PERSON"
         = some { storedRow with
                    substitution_count := storedRow.substitution_count + 1,
                    last_used := 9 }) := by
  refine ⟨by decide, by decide, ?_⟩
  exact c1_consistency_for_nonempty_substitutes.2 [storedRow] "x" "PERSON"
    (fun _ _ => "OTHER") 9 storedRow (by decide) (by decide)

/-- C2 (amended): when a concurrent writer inserts the same
`(fingerprint, entity_type)` between this caller's lookup and its insert, the
insert does fail on the uniqueness invariant — but `get_or_create` has no
conflict handler, so the `IntegrityError` propagates to the caller instead of
being recovered by a re-lookup; the uniqueness invariant itself (at most one
row per key) is preserved. -/
theorem c2_race_surfaces_integrity_error :
    ∀ (db : List PIIMapping) (other : PIIMapping) (v t : String)
      (gen : String → String → String) (now : Nat),
      get_substitute db v t = none →
      other.original_hash = compute_hash v t →
      other.entity_type = t →
      get_or_create_raced db other v t gen now = .error ()
      ∧ (uniqueIndex db → uniqueIndex (db ++ [other])) := by
  intro db other v t gen now hmiss hh ht
  have hfind : db.find? (matchesKey · (compute_hash v t) t) = none := by
    simpa [get_substitute, Option.map_eq_none'] using hmiss
  have hnotmatch : ∀ r ∈ db, ¬(matchesKey r (compute_hash v t) t = true) :=
    fun r hr => List.find?_eq_none.mp hfind r hr
  constructor
  · have hmatch : matchesKey other (compute_hash v t) t = true := by
      simp [matchesKey, hh, ht]
    have hany : (db ++ [other]).any (matchesKey · (compute_hash v t) t) = true := by
      rw [List.any_append]
      simp [hmatch]
    simp [get_or_create_raced, hmiss, optTruthy, create_mapping, hany]
  · intro hu
    rw [uniqueIndex, List.pairwise_append]
    refine ⟨hu, List.pairwise_singleton _ _, ?_⟩
    intro r hr o ho
    rw [List.mem_singleton] at ho
    subst ho
    have := hnotmatch r hr
    simp only [matchesKey, Bool.and_eq_true, decide_eq_true_eq] at this
    rw [hh, ht]
    exact fun hc => this ⟨hc.1, hc.2⟩

/-- C2 counterexample: on the concrete race the caller receives the
`IntegrityError` (`.error ()`); it does not receive the concurrent winner's
stored substitute. -/
theorem c2_counterexample :
    get_or_create_raced [] racedRow "x" "PERSON" (fun _ _ => "FRESH") 1
      = .error ()
    ∧ get_or_create_raced [] racedRow "x" "PERSON" (fun _ _ => "FRESH") 1
      ≠ .ok ("WINNER", false, [racedRow]) :=
  ⟨by decide, by decide⟩

/-- C2 witness: the race theorem applied at the empty store and the concrete
concurrent row. -/
theorem c2_witness :
    get_or_create_raced [] racedRow "x" "PERSON" (fun _ _ => "F2") 2
      = .error ()
    ∧ (uniqueIndex [] → uniqueIndex ([] ++ [racedRow])) :=
  c2_race_surfaces_integrity_error [] racedRow "x" "PERSON" (fun _ _ => "F2") 2
    rfl (by decide) rfl

/-! ## Request validation (C7) -/

/-- C7 (amended): schema validation rejects a request exactly for empty
text, oversized text, or an out-of-range confidence threshold — a requested
entity type that is not supported is *not* a rejection cause; instead
`PIIDetector.detect` silently filters the requested types down to the
supported ones and detection proceeds over the remainder. -/
theorem c7_validation_characterization :
    (∀ r : AnonymizeRequest, validateAnonymizeRequest r = false ↔
      (r.text.length = 0 ∨ 1000000 < r.text.length ∨
        ∃ c, r.confidence_threshold = some c ∧ (c < 0 ∨ 1 < c)))
    ∧ (∀ (ets : Option (List String)) (t : String),
        t ∈ entities_to_detect ets → t ∈ SUPPORTED_ENTITY_TYPES) := by
  constructor
  · intro r
    cases hc : r.confidence_threshold with
    | none =>
      simp only [validateAnonymizeRequest, hc, Bool.and_true,
        Bool.and_eq_false_iff, decide_eq_false_iff_not, not_le]
      constructor
      · rintro (h | h)
        · exact Or.inl (by omega)
        · exact Or.inr (Or.inl (by omega))
      · rintro (h | h | ⟨c, hcc, _⟩)
        · exact Or.inl (by omega)
        · exact Or.inr (by omega)
        · exact Option.noConfusion hcc
    | some c =>
      simp only [validateAnonymizeRequest, hc, Bool.and_eq_false_iff,
        decide_eq_false_iff_not, not_le, Option.some.injEq]
      constructor
      · rintro ((h | h) | h)
        · exact Or.inl (by omega)
        · exact Or.inr (Or.inl (by omega))
        · exact Or.inr (Or.inr ⟨c, rfl, h⟩)
      · rintro (h | h | ⟨c', hcc, hor⟩)
        · exact Or.inl (Or.inl (by omega))
        · exact Or.inl (Or.inr (by omega))
        · subst hcc
          exact Or.inr hor
  · intro ets t ht
    have hf := List.mem_filter.mp ht
    exact List.mem_of_elem_eq_true hf.2

/-- C7 counterexample: a request asking for the unsupported entity type
`"NOT_A_TYPE"` passes validation (it is not rejected before detection), and
the detector simply filters the type away, leaving detection to run over an
empty type list. -/
theorem c7_counterexample :
    validateAnonymizeRequest
      { text := "John Smith", entity_types := some ["NOT_A_TYPE"],
        confidence_threshold := some 1 } = true
    ∧ "NOT_A_TYPE" ∉ SUPPORTED_ENTITY_TYPES
    ∧ entities_to_detect (some ["NOT_A_TYPE"]) = [] :=
  ⟨by decide, by decide, by decide⟩

/-- C7 witness: the filter component applied at a concrete mixed request. -/
theorem c7_witness :
    "PERSON" ∈ entities_to_detect (some ["PERSON", "NOT_A_TYPE"])
    ∧ "PERSON" ∈ SUPPORTED_ENTITY_TYPES :=
  ⟨by decide, c7_validation_characterization.2 (some ["PERSON", "NOT_A_TYPE"])
    "PERSON" (by decide)⟩

/-! ## Public address generation (C8) -/

theorem generate_public_ipv4_const9 :
    ∀ n, generate_public_ipv4 n (fun _ => 9) = none := by
  intro n
  induction n with
  | zero => rfl
  | succ k ih => exact ih

/-- C8 counterexample: `generate_public_ipv4` is a `while True` loop with no
attempt bound and no fallback — on the stream whose every candidate falls in
`10.0.0.0/8` it makes no progress even after 500 attempts (far beyond the 200
used elsewhere), while the network-prefix variant does fall back
deterministically to a known-public block on the same stream. -/
theorem c8_counterexample :
    generate_public_ipv4 500 (fun _ => 9) = none
    ∧ (generate_public_network 24 (fun _ => 9)).1 = "185.9.9.0/24" :=
  ⟨generate_public_ipv4_const9 500, by decide⟩

theorem gpnAttempts_spec :
    ∀ (n p : Nat) (s : RNG) (out : String) (s' : RNG), p ≤ 32 →
      gpnAttempts n p s = some (out, s') →
      ∃ a b c d, out = netString a b c d p ∧ pyPublicNetOk a b c d p = true := by
  intro n
  induction n with
  | zero => intro p s out s' hp h; simp [gpnAttempts] at h
  | succ k ih =>
    intro p s out s' hp h
    rw [gpnAttempts] at h
    split at h
    next a b c d s4 _ =>
      by_cases h1 : (pyIsPrivateQuad a b c d || pyIsReservedQuad a
          || pyIsLoopbackQuad a || pyIsMulticastQuad a) = true
      · rw [if_pos h1] at h
        exact ih p s4 out s' hp h
      · rw [if_neg h1, if_pos hp] at h
        by_cases h2 : pyPublicNetOk a b c d p = true
        · rw [if_pos h2] at h
          refine ⟨a, b, c, d, ?_, h2⟩
          injection h with h'
          exact (congrArg Prod.fst h').symm
        · rw [if_neg h2] at h
          exact ih p s4 out s' hp h

theorem gpnFallbackDraw_fst_lt (s : RNG) : (gpnFallbackDraw s).1 < 12 := by
  simp only [gpnFallbackDraw, choiceIdx, randint, RNG.next]
  omega

/-- C8 (amended): the *network-prefix* generator is the bounded one — it
makes at most 200 attempts, each accepted only if the candidate and its
normalized network address pass the public checks, and otherwise falls back
deterministically to a network whose first octet is drawn from the
known-public list; the *host* generator (`generate_public_ipv4`, see the
counterexample) retries without bound and has no fallback. -/
theorem c8_bounded_network_generation :
    ∀ (p : Nat) (s : RNG), p ≤ 32 →
      (∃ a b c d, (generate_public_network p s).1 = netString a b c d p
        ∧ pyPublicNetOk a b c d p = true)
      ∨ (gpnAttempts 200 p s = none
         ∧ ∃ i b c, i < 12 ∧ (generate_public_network p s).1
             = netString (knownPublicFirstOctets.getD i 45) b c 0 p) := by
  intro p s hp
  cases hg : gpnAttempts 200 p s with
  | some r =>
    left
    obtain ⟨out, s'⟩ := r
    obtain ⟨a, b, c, d, ho, hok⟩ := gpnAttempts_spec 200 p s out s' hp hg
    refine ⟨a, b, c, d, ?_, hok⟩
    have heq : generate_public_network p s = (out, s') := by
      delta generate_public_network
      rw [hg]
    rw [heq]
    exact ho
  | none =>
    right
    refine ⟨rfl, ?_⟩
    rcases hq : gpnFallbackDraw s with ⟨i0, b0, c0, s3⟩
    have heq : generate_public_network p s
        = (netString (knownPublicFirstOctets.getD i0 45) b0 c0 0 p, s3) := by
      delta generate_public_network
      rw [hg, hq]
      dsimp only
      rw [if_pos hp]
    refine ⟨i0, b0, c0, ?_, by rw [heq]⟩
    have := gpnFallbackDraw_fst_lt s
    rw [hq] at this
    exact this

/-! ## IP classification preservation (C5) -/

theorem parseOct_repr : ∀ n, n < 256 → parseOct (Nat.repr n).toList = some n := by
  decide

theorem repr_all_not_dot :
    ∀ n, n < 256 → ((Nat.repr n).toList.all (fun c => !(c = '.'))) = true := by
  decide

theorem repr_no_dot {n : Nat} (hn : n < 256) :
    ∀ c ∈ (Nat.repr n).toList, c ≠ '.' := by
  intro c hc
  have := List.all_eq_true.mp (repr_all_not_dot n hn) c hc
  simpa using this

theorem splitOnChar_append {sep : Char} {xs : List Char} (ys : List Char)
    (h : ∀ c ∈ xs, c ≠ sep) :
    splitOnChar sep (xs ++ sep :: ys) = xs :: splitOnChar sep ys := by
  induction xs with
  | nil => simp [splitOnChar]
  | cons x xs ih =>
    have hx : ¬(x = sep) := h x (List.mem_cons_self x xs)
    have ih' := ih (fun c hc => h c (List.mem_cons_of_mem x hc))
    simp only [List.cons_append, splitOnChar, if_neg hx, List.append_eq]
    rw [ih']

theorem splitOnChar_of_no_sep {sep : Char} {xs : List Char}
    (h : ∀ c ∈ xs, c ≠ sep) : splitOnChar sep xs = [xs] := by
  induction xs with
  | nil => rfl
  | cons x xs ih =>
    have hx : ¬(x = sep) := h x (List.mem_cons_self x xs)
    have ih' := ih (fun c hc => h c (List.mem_cons_of_mem x hc))
    simp only [splitOnChar, if_neg hx, ih']

theorem toList_mkQuad (a b c d : Nat) :
    (mkQuad a b c d).toList
      = (Nat.repr a).toList ++ '.' :: ((Nat.repr b).toList
          ++ '.' :: ((Nat.repr c).toList ++ '.' :: (Nat.repr d).toList)) := by
  show (mkQuad a b c d).data = _
  simp [mkQuad, String.data_append]

theorem parseIPv4_mkQuad {a b c d : Nat}
    (ha : a < 256) (hb : b < 256) (hc : c < 256) (hd : d < 256) :
    parseIPv4 (mkQuad a b c d) = some (a, b, c, d) := by
  have hsplit : splitDot (mkQuad a b c d).toList
      = [(Nat.repr a).toList, (Nat.repr b).toList,
         (Nat.repr c).toList, (Nat.repr d).toList] := by
    rw [toList_mkQuad]
    show splitOnChar '.' _ = _
    rw [splitOnChar_append _ (repr_no_dot ha),
      splitOnChar_append _ (repr_no_dot hb),
      splitOnChar_append _ (repr_no_dot hc),
      splitOnChar_of_no_sep (repr_no_dot hd)]
  unfold parseIPv4
  rw [hsplit]
  dsimp only
  rw [parseOct_repr a ha, parseOct_repr b hb, parseOct_repr c hc,
    parseOct_repr d hd]

theorem is_private_ip_mkQuad {a b c d : Nat}
    (ha : a < 256) (hb : b < 256) (hc : c < 256) (hd : d < 256) :
    is_private_ip (mkQuad a b c d) = quadIsRFC1918OrInternal a b := by
  rw [is_private_ip, parseIPv4_mkQuad ha hb hc hd]

theorem generate_private_ipv4_is_private (s : RNG) :
    is_private_ip (generate_private_ipv4 s).1 = true := by
  simp only [generate_private_ipv4, choiceIdx, randint, RNG.next]
  split_ifs with h1 h2
  all_goals rw [is_private_ip_mkQuad (by omega) (by omega) (by omega) (by omega)]
  all_goals simp [quadIsRFC1918OrInternal]
  all_goals omega

theorem gp4Draw_bounds (s : RNG) :
    ∀ a b c d s4, gp4Draw s = ((a, b, c, d), s4) →
      a < 256 ∧ b < 256 ∧ c < 256 ∧ d < 256 := by
  intro a b c d s4 h
  simp only [gp4Draw, randint, RNG.next, Prod.mk.injEq] at h
  omega

theorem generate_public_ipv4_spec :
    ∀ (n : Nat) (s : RNG) (out : String) (s' : RNG),
      generate_public_ipv4 n s = some (out, s') →
      ∃ a b c d, out = mkQuad a b c d
        ∧ a < 256 ∧ b < 256 ∧ c < 256 ∧ d < 256
        ∧ pyPublicHostOk a b c d = true := by
  intro n
  induction n with
  | zero => intro s out s' h; simp [generate_public_ipv4] at h
  | succ k ih =>
    intro s out s' h
    rw [generate_public_ipv4] at h
    split at h
    next a b c d s4 hdraw =>
      by_cases hok : pyPublicHostOk a b c d = true
      · rw [if_pos hok] at h
        obtain ⟨ha, hb, hc, hd⟩ := gp4Draw_bounds s a b c d s4 hdraw
        refine ⟨a, b, c, d, ?_, ha, hb, hc, hd, hok⟩
        injection h with h'
        exact (congrArg Prod.fst h').symm
      · rw [if_neg hok] at h
        exact ih s4 out s' h

theorem internal_implies_not_publicOk {a b c d : Nat}
    (h : quadIsRFC1918OrInternal a b = true) :
    pyPublicHostOk a b c d = false := by
  simp only [quadIsRFC1918OrInternal, Bool.or_eq_true, Bool.and_eq_true,
    decide_eq_true_eq] at h
  rcases h with (((h | ⟨⟨ha, hb1⟩, hb2⟩) | ⟨ha, hb⟩) | h) | ⟨ha, hb⟩
  · subst h; simp [pyPublicHostOk, pyIsPrivateQuad]
  · subst ha; simp [pyPublicHostOk, pyIsPrivateQuad, hb1, hb2]
  · subst ha; subst hb; simp [pyPublicHostOk, pyIsPrivateQuad]
  · subst h; simp [pyPublicHostOk, pyIsPrivateQuad]
  · subst ha; subst hb; simp [pyPublicHostOk, pyIsPrivateQuad]

theorem publicHostOk_not_internal {a b c d : Nat}
    (h : pyPublicHostOk a b c d = true) :
    quadIsRFC1918OrInternal a b = false := by
  cases hq : quadIsRFC1918OrInternal a b with
  | false => rfl
  | true =>
    rw [internal_implies_not_publicOk (c := c) (d := d) hq] at h
    exact absurd h (by simp)

theorem _generate_ip_private_host {o ip sfx q : String} {fuel : Nat} {rng : RNG}
    {w : String} {s' : RNG}
    (h1 : is_network_address o = (false, none))
    (h2 : parse_ip_with_cidr o = (ip, some sfx))
    (h3 : reSearchQuad ip.toList = some q)
    (h4 : is_private_ip q = true)
    (hw : generate_private_ipv4 rng = (w, s')) :
    _generate_ip fuel rng (some o) = some (w ++ sfx, s') := by
  delta _generate_ip
  dsimp only
  rw [h1]
  dsimp only
  rw [h2]
  dsimp only
  rw [h3]
  dsimp only
  rw [if_pos h4, hw]

theorem _generate_ip_public_host {o q : String} {fuel : Nat} {rng : RNG}
    (h1 : is_network_address o = (false, none))
    (h2 : parse_ip_with_cidr o = (o, none))
    (h3 : reSearchQuad o.toList = some q)
    (h4 : is_private_ip q = false) :
    _generate_ip fuel rng (some o)
      = (generate_public_ipv4 fuel rng).map (fun r => r) := by
  delta _generate_ip
  dsimp only
  rw [h1]
  dsimp only
  rw [h2]
  dsimp only
  rw [h3]
  dsimp only
  rw [if_neg (by rw [h4]; exact Bool.false_ne_true)]
  cases hgp : generate_public_ipv4 fuel rng with
  | none => rfl
  | some r => cases r; rfl

theorem generate_dispatch_ip (fuel : Nat) (env : GenEnv) (ov hs : Option String) :
    SyntheticGenerator.generate fuel env "IP_ADDRESS" ov hs
      = (_generate_ip fuel env.rng ov).map (·.1) := by
  cases hs <;> rfl

/-- C5: `generate("IP_ADDRESS", v)` preserves network classification.  For a
host `v` that is not a strict network, carries a CIDR suffix, and whose
address part is private, the output is always a freshly generated private
address with the original suffix reattached unchanged; for a suffix-free
public host `v`, whenever generation returns, the output is a dotted quad
passing all the public checks (not private, loopback, link-local, multicast
or reserved) — in particular it is not RFC 1918 private, loopback or
link-local. -/
theorem c5_ip_classification_preservation :
    (∀ (o ip sfx q : String) (fuel : Nat) (env : GenEnv) (hs : Option String),
      is_network_address o = (false, none) →
      parse_ip_with_cidr o = (ip, some sfx) →
      reSearchQuad ip.toList = some q →
      is_private_ip q = true →
      ∃ w : String,
        SyntheticGenerator.generate fuel env "IP_ADDRESS" (some o) hs
          = some (w ++ sfx)
        ∧ is_private_ip w = true)
    ∧ (∀ (o q out : String) (fuel : Nat) (env : GenEnv) (hs : Option String),
      is_network_address o = (false, none) →
      parse_ip_with_cidr o = (o, none) →
      reSearchQuad o.toList = some q →
      is_private_ip q = false →
      SyntheticGenerator.generate fuel env "IP_ADDRESS" (some o) hs = some out →
      is_private_ip out = false
      ∧ ∃ a b c d, out = mkQuad a b c d ∧ pyPublicHostOk a b c d = true) := by
  constructor
  · intro o ip sfx q fuel env hs h1 h2 h3 h4
    rcases hw : generate_private_ipv4 env.rng with ⟨w, s'⟩
    refine ⟨w, ?_, ?_⟩
    · rw [generate_dispatch_ip,
        _generate_ip_private_host h1 h2 h3 h4 hw]
      rfl
    · have := generate_private_ipv4_is_private env.rng
      rw [hw] at this
      exact this
  · intro o q out fuel env hs h1 h2 h3 h4 hcall
    rw [generate_dispatch_ip,
      _generate_ip_public_host h1 h2 h3 h4] at hcall
    cases hgp : generate_public_ipv4 fuel env.rng with
    | none => rw [hgp] at hcall; exact absurd hcall (by simp)
    | some r =>
      obtain ⟨ip', s'⟩ := r
      rw [hgp] at hcall
      obtain rfl : ip' = out := by
        simpa using hcall
      obtain ⟨a, b, c, d, ho, ha, hb, hc, hd, hok⟩ :=
        generate_public_ipv4_spec fuel env.rng ip' s' hgp
      subst ho
      exact ⟨by rw [is_private_ip_mkQuad ha hb hc hd,
        publicHostOk_not_internal hok], a, b, c, d, rfl, hok⟩

/-- C5 witness: the classification theorem applied at the spec's own
examples — the private host `192.168.1.50/24` (suffix preserved, result
private) and the public host `8.8.8.8` with a concrete terminating stream. -/
theorem c5_witness :
    (is_network_address "192.168.1.50/24" = (false, none)
      ∧ ∃ w : String,
          SyntheticGenerator.generate 1 env0 "IP_ADDRESS"
            (some "192.168.1.50/24") none = some (w ++ "/24")
          ∧ is_private_ip w = true)
    ∧ (SyntheticGenerator.generate 1 env0 "IP_ADDRESS" (some "8.8.8.8") none
        = some "1.0.0.1"
      ∧ is_private_ip "1.0.0.1" = false
      ∧ ∃ a b c d, "1.0.0.1" = mkQuad a b c d ∧ pyPublicHostOk a b c d = true) := by
  refine ⟨⟨by decide, ?_⟩, ⟨by decide, ?_⟩⟩
  · exact c5_ip_classification_preservation.1 "192.168.1.50/24" "192.168.1.50"
      "/24" "192.168.1.50" 1 env0 none (by decide) (by decide) (by decide)
      (by decide)
  · exact (c5_ip_classification_preservation.2 "8.8.8.8" "8.8.8.8" "1.0.0.1"
      1 env0 none (by decide) (by decide) (by decide) (by decide) (by decide))

/-- C8 witness: the bounded-generation theorem applied at prefix length 24
and the all-private stream (which exhausts all 200 attempts and lands in the
fallback). -/
theorem c8_witness :
    (24 : Nat) ≤ 32
    ∧ ((∃ a b c d, (generate_public_network 24 (fun _ => 9)).1
          = netString a b c d 24 ∧ pyPublicNetOk a b c d 24 = true)
       ∨ (gpnAttempts 200 24 (fun _ => 9) = none
          ∧ ∃ i b c, i < 12 ∧ (generate_public_network 24 (fun _ => 9)).1
              = netString (knownPublicFirstOctets.getD i 45) b c 0 24)) :=
  ⟨by decide, c8_bounded_network_generation 24 (fun _ => 9) (by decide)⟩

/-! ## Reported offsets and offset fidelity (C6) -/

theorem engineRun_items_length (text : List Char) (F : String → List Char → String) :
    ∀ (ds : List DetectionResult) (pos outPos : Nat),
      (engineRun text F ds pos outPos).2.length = ds.length := by
  intro ds
  induction ds with
  | nil => intro pos outPos; rfl
  | cons d rest ih =>
    intro pos outPos
    simp only [engineRun, List.length_cons, ih]

theorem engineRun_items_lb (text : List Char) (F : String → List Char → String) :
    ∀ (ds : List DetectionResult) (pos outPos : Nat),
      ∀ it ∈ (engineRun text F ds pos outPos).2, outPos ≤ it.start := by
  intro ds
  induction ds with
  | nil => intro pos outPos it hit; simp [engineRun] at hit
  | cons d rest ih =>
    intro pos outPos it hit
    simp only [engineRun, List.mem_cons] at hit
    rcases hit with rfl | hit
    · exact Nat.le_add_right _ _
    · have := ih d.stop
        (outPos + (slice text pos d.start).length
          + (F d.entity_type (slice text d.start d.stop)).length) it hit
      omega

theorem engineRun_items_sorted (text : List Char) (F : String → List Char → String) :
    ∀ (ds : List DetectionResult) (pos outPos : Nat),
      ((engineRun text F ds pos outPos).2).Sorted
        (fun x y => x.start ≤ y.start) := by
  intro ds
  induction ds with
  | nil => intro pos outPos; simp [engineRun]
  | cons d rest ih =>
    intro pos outPos
    simp only [engineRun, List.sorted_cons]
    constructor
    · intro it hit
      have := engineRun_items_lb text F rest d.stop
        (outPos + (slice text pos d.start).length
          + (F d.entity_type (slice text d.start d.stop)).length) it hit
      omega
    · exact ih d.stop _

theorem engineRun_zip (text : List Char) (F : String → List Char → String) :
    ∀ (ds : List DetectionResult) (pos outPos : Nat),
      ((ds.zip (engineRun text F ds pos outPos).2).map fun p =>
          SubstitutionInfo.mk p.1.start p.1.stop p.1.entity_type
            (p.1.stop - p.1.start) p.2.text)
        = specSubs text F ds := by
  intro ds
  induction ds with
  | nil => intro pos outPos; rfl
  | cons d rest ih =>
    intro pos outPos
    simp only [engineRun, specSubs, List.zip_cons_cons, List.map_cons,
      List.cons.injEq]
    exact ⟨trivial, ih d.stop _⟩

theorem engineRun_text (text : List Char) (F : String → List Char → String) :
    ∀ (ds : List DetectionResult) (pos outPos : Nat),
      (engineRun text F ds pos outPos).1
        = rewriteFrom text pos (specSubs text F ds) := by
  intro ds
  induction ds with
  | nil => intro pos outPos; rfl
  | cons d rest ih =>
    intro pos outPos
    simp only [engineRun, specSubs, List.map_cons, rewriteFrom]
    rw [ih d.stop _]
    rfl

theorem detect_sorted (text : List Char) (raw : List RawSpan) :
    (PIIDetector.detect text raw).Sorted (fun a b => a.start ≤ b.start) := by
  haveI : IsTotal DetectionResult (fun a b => a.start ≤ b.start) :=
    ⟨fun a b => Nat.le_total a.start b.start⟩
  haveI : IsTrans DetectionResult (fun a b => a.start ≤ b.start) :=
    ⟨fun a b c h1 h2 => Nat.le_trans h1 h2⟩
  exact List.sorted_insertionSort _ _

theorem mem_detect {text : List Char} {raw : List RawSpan} {d : DetectionResult} :
    d ∈ PIIDetector.detect text raw ↔
      ∃ sp ∈ raw,
        d = { entity_type := sp.entity_type, start := sp.start, stop := sp.stop,
              score := sp.score, text := slice text sp.start sp.stop } := by
  constructor
  · intro hd
    rw [PIIDetector.detect, List.mem_insertionSort, List.mem_map] at hd
    obtain ⟨sp, hsp, hconv⟩ := hd
    exact ⟨sp, hsp, hconv.symm⟩
  · intro hd
    obtain ⟨sp, hsp, hconv⟩ := hd
    rw [PIIDetector.detect, List.mem_insertionSort, List.mem_map]
    exact ⟨sp, hsp, hconv.symm⟩

/-- C6: every reported substitution carries the corresponding detection's
`start`/`end`, which are positions in the *original* input text: they lie
within it, the original text's substring there is exactly the detected entity
text, and the substitute written is the operator's output for exactly that
substring.  Moreover the anonymized text equals the reconstruction obtained
by re-reading the reported original-text positions and splicing in the
reported substitutes left to right — however many replacements occurred. -/
theorem c6_reported_positions_are_original :
    ∀ (text : List Char) (raw : List RawSpan) (F : String → List Char → String),
      (∀ sp ∈ raw, sp.start < sp.stop ∧ sp.stop ≤ text.length) →
      (raw.Pairwise fun x y => x.stop ≤ y.start ∨ y.stop ≤ x.start) →
      (PIIAnonymizer.anonymize text raw F).substitutions
          = specSubs text F (PIIDetector.detect text raw)
      ∧ (∀ si ∈ (PIIAnonymizer.anonymize text raw F).substitutions,
          si.start < si.stop ∧ si.stop ≤ text.length
          ∧ si.substitute = F si.entity_type (slice text si.start si.stop)
          ∧ ∃ d ∈ PIIDetector.detect text raw,
              si.start = d.start ∧ si.stop = d.stop
              ∧ d.text = slice text si.start si.stop)
      ∧ (PIIAnonymizer.anonymize text raw F).anonymized_text
          = rewriteFrom text 0 (PIIAnonymizer.anonymize text raw F).substitutions := by
  intro text raw F hb _hnov
  have hsubs_mem : ∀ si ∈ specSubs text F (PIIDetector.detect text raw),
      si.start < si.stop ∧ si.stop ≤ text.length
      ∧ si.substitute = F si.entity_type (slice text si.start si.stop)
      ∧ ∃ d ∈ PIIDetector.detect text raw,
          si.start = d.start ∧ si.stop = d.stop
          ∧ d.text = slice text si.start si.stop := by
    intro si hsi
    rw [specSubs, List.mem_map] at hsi
    obtain ⟨d, hd, hconv⟩ := hsi
    obtain ⟨sp, hsp, hdsp⟩ := mem_detect.mp hd
    obtain ⟨hlt, hle⟩ := hb sp hsp
    subst hconv
    subst hdsp
    exact ⟨hlt, hle, rfl, _, hd, rfl, rfl, rfl⟩
  by_cases hd : PIIDetector.detect text raw = []
  · have hanon : PIIAnonymizer.anonymize text raw F =
        { anonymized_text := text, substitutions := [],
          entities_detected := 0, entities_anonymized := 0 } := by
      simp only [PIIAnonymizer.anonymize]
      rw [if_pos hd]
    rw [hanon, hd]
    refine ⟨rfl, ?_, by simp [rewriteFrom]⟩
    intro si hsi
    simp at hsi
  · have hone : PIIAnonymizer.anonymize text raw F =
        { anonymized_text := (engineRun text F (PIIDetector.detect text raw) 0 0).1,
          substitutions := specSubs text F (PIIDetector.detect text raw),
          entities_detected := (PIIDetector.detect text raw).length,
          entities_anonymized :=
            (specSubs text F (PIIDetector.detect text raw)).length } := by
      rw [PIIAnonymizer.anonymize]
      simp only [if_neg hd]
      rw [(detect_sorted text raw).insertionSort_eq,
        (engineRun_items_sorted text F (PIIDetector.detect text raw) 0 0).insertionSort_eq,
        engineRun_zip text F (PIIDetector.detect text raw) 0 0]
    rw [hone]
    refine ⟨rfl, hsubs_mem, ?_⟩
    exact engineRun_text text F (PIIDetector.detect text raw) 0 0

/-- C6 witness: the theorem applied at a concrete text with two concrete
raw spans and a concrete substitution operator — the reported substitutions
are the per-detection records at original positions, and the output text is
the reconstruction from the reported original-text positions. -/
theorem c6_witness :
    (PIIAnonymizer.anonymize ("Call John at 5551234567.".toList)
        [{ entity_type := "PERSON", start := 5, stop := 9, score := 1 },
         { entity_type := "PHONE_NUMBER", start := 13, stop := 23, score := 1 }]
        (fun _ _ => "X")).substitutions
      = specSubs ("Call John at 5551234567.".toList) (fun _ _ => "X")
          (PIIDetector.detect ("Call John at 5551234567.".toList)
            [{ entity_type := "PERSON", start := 5, stop := 9, score := 1 },
             { entity_type := "PHONE_NUMBER", start := 13, stop := 23, score := 1 }])
    ∧ (PIIAnonymizer.anonymize ("Call John at 5551234567.".toList)
        [{ entity_type := "PERSON", start := 5, stop := 9, score := 1 },
         { entity_type := "PHONE_NUMBER", start := 13, stop := 23, score := 1 }]
        (fun _ _ => "X")).anonymized_text
      = rewriteFrom ("Call John at 5551234567.".toList) 0
          (PIIAnonymizer.anonymize ("Call John at 5551234567.".toList)
            [{ entity_type := "PERSON", start := 5, stop := 9, score := 1 },
             { entity_type := "PHONE_NUMBER", start := 13, stop := 23, score := 1 }]
            (fun _ _ => "X")).substitutions := by
  have h := c6_reported_positions_are_original ("Call John at 5551234567.".toList)
    [{ entity_type := "PERSON", start := 5, stop := 9, score := 1 },
     { entity_type := "PHONE_NUMBER", start := 13, stop := 23, score := 1 }]
    (fun _ _ => "X") (by decide)
    (by
      simp only [List.pairwise_cons, List.mem_singleton]
      exact ⟨fun y hy => by subst hy; left; decide,
        fun y hy => by simp at hy, List.Pairwise.nil⟩)
  exact ⟨h.1, h.2.2⟩

end PIIAnon
